import Mathlib

/-!
Verification of libavcodec/evc_parse.h (EVC decoder/parser shared code).

Byte buffers are embedded as `List Nat`; each element models a `uint8_t`,
so every read goes through `byteAt`, which truncates to 8 bits.  Logging
via `av_log` is embedded as an explicit list of emitted messages returned
next to the function result.
-/

/-! ### Bit-field primitives, parameter sets, slice header, POC tracker

The definitions below embed components whose implementation lives in
files of this repository that are not part of src (evc_parse.c, evc_ps.h,
get_bits.h, golomb.h); they are modelled from the spec, as their doc
comments record.
-/

/-- A `uint8_t` read from position `i` of the buffer (0 when out of range,
matching the embedding convention that buffers are only read in bounds). -/
def byteAt (bits : List Nat) (i : Nat) : Nat :=
  (bits.getD i 0) % 256

/-- Modelled from the spec: the fixed NAL-unit header size in bytes, the
constant EVC_NALU_HEADER_SIZE of evc.h (evc.h is not part of src). -/
def EVC_NALU_HEADER_SIZE : Nat := 2

/-- Modelled from the spec: the 4-byte length-prefix size, the constant
EVC_NALU_LENGTH_PREFIX_SIZE of evc.h (evc.h is not part of src). -/
def EVC_NALU_LENGTH_PREFIX_SIZE : Nat := 4

/-- Modelled from the spec: the compile-time maximum tile-grid row count
EVC_MAX_TILE_ROWS of evc.h (evc.h is not part of src). -/
def EVC_MAX_TILE_ROWS : Nat := 22

/-- Modelled from the spec: the compile-time maximum tile-grid column count
EVC_MAX_TILE_COLUMNS of evc.h (evc.h is not part of src). -/
def EVC_MAX_TILE_COLUMNS : Nat := 20

/-- Modelled from the spec: AV_RB32 of libavutil/intreadwrite.h (not part
of src): "the 32-bit big-endian value at the buffer start". -/
def AV_RB32 (bits : List Nat) : Nat :=
  byteAt bits 0 * 2 ^ 24 + byteAt bits 1 * 2 ^ 16 + byteAt bits 2 * 2 ^ 8 + byteAt bits 3

/-- Embedding of `evc_get_nalu_type` (evc_parse.h lines 130-147).
The C function starts from `unit_type_plus1 = 0`; when the buffer holds at
least EVC_NALU_HEADER_SIZE bytes it checks the forbidden_zero_bit of the
first byte (logging and returning -1 when it is set) and otherwise extracts
`(p[0] >> 1) & 0x3F`; it returns `unit_type_plus1 - 1`.  The second
component collects the `av_log` messages. -/
def evc_get_nalu_type (bits : List Nat) : Int × List String :=
  if EVC_NALU_HEADER_SIZE ≤ bits.length then
    if byteAt bits 0 &&& 0x80 ≠ 0 then
      (-1, ["Invalid NAL unit header\n"])
    else
      ((((byteAt bits 0 >>> 1) &&& 0x3F : Nat) : Int) - 1, [])
  else
    ((0 : Int) - 1, [])

/-- Embedding of `evc_read_nal_unit_length` (evc_parse.h lines 149-161):
returns 0 and logs when fewer than EVC_NALU_LENGTH_PREFIX_SIZE bytes are
available, otherwise the 32-bit big-endian value at the buffer start. -/
def evc_read_nal_unit_length (bits : List Nat) : Nat × List String :=
  if bits.length < EVC_NALU_LENGTH_PREFIX_SIZE then
    (0, ["Can't read NAL unit length\n"])
  else
    (AV_RB32 bits, [])

/-- Spec-side restatement of a 32-bit big-endian read: fold the first four
bytes most-significant first. -/
def be32_of_first4 (bits : List Nat) : Nat :=
  (bits.take 4).foldl (fun a b => a * 256 + b % 256) 0

/-- Modelled from the spec: reading one bit from a most-significant-first
bit cursor over a byte buffer (the bit-field primitives of get_bits.h are
not part of src); `none` when the cursor is past the end. -/
def read_bit (bits : List Nat) (pos : Nat) : Option Nat :=
  if pos < 8 * bits.length then
    some ((byteAt bits (pos / 8) >>> (7 - pos % 8)) &&& 1)
  else
    none

/-- Modelled from the spec: fixed-width big-endian extraction of `n` bits
starting at bit cursor `pos` (u(n) of the syntax tables). -/
def read_bits (bits : List Nat) : Nat → Nat → Option Nat
  | _, 0 => some 0
  | pos, n + 1 =>
    match read_bit bits pos, read_bits bits (pos + 1) n with
    | some b, some v => some (b * 2 ^ n + v)
    | _, _ => none

/-- Modelled from the spec: the run of zero bits before the first one bit,
fuelled by the buffer's bit count so that the recursion is structural. -/
def count_zero_bits (bits : List Nat) : Nat → Nat → Option Nat
  | _, 0 => none
  | pos, fuel + 1 =>
    match read_bit bits pos with
    | none => none
    | some b =>
      if b = 1 then some 0
      else
        match count_zero_bits bits (pos + 1) fuel with
        | none => none
        | some k => some (k + 1)

/-- Modelled from the spec glossary: 0-th order Exp-Golomb decoding, left
bit first — `k` leading zeros, a one bit, then `k` suffix bits give the
value `2^k - 1 + suffix`; returns the value and the new cursor. -/
def get_ue_golomb (bits : List Nat) (pos : Nat) : Option (Nat × Nat) :=
  match count_zero_bits bits pos (8 * bits.length + 1) with
  | none => none
  | some k =>
    match read_bits bits (pos + k + 1) k with
    | none => none
    | some v => some (2 ^ k - 1 + v, pos + 2 * k + 1)

/-- Modelled from the spec: a run of `n` consecutive Exp-Golomb values. -/
def read_ue_list (bits : List Nat) : Nat → Nat → Option (List Nat × Nat)
  | pos, 0 => some ([], pos)
  | pos, n + 1 =>
    match get_ue_golomb bits pos with
    | none => none
    | some (v, pos2) =>
      match read_ue_list bits pos2 n with
      | none => none
      | some (vs, pos3) => some (v :: vs, pos3)

/-- Modelled from the spec: the decoded sequence-parameter-set record of
evc_ps.h (not part of src) — "profile, resolution, chroma format,
frame-rate numerator/denominator, GOP size, bit depth, tiling layout,
tool-enable flags", keyed by its embedded id, plus the POC low-order
field width the slice decoder needs. -/
structure EVCParserSPS where
  sps_seq_parameter_set_id : Nat
  profile_idc : Nat
  pic_width_in_luma_samples : Nat
  pic_height_in_luma_samples : Nat
  chroma_format_idc : Nat
  bit_depth_luma_minus8 : Nat
  framerate_num : Nat
  framerate_den : Nat
  gop_size : Nat
  log2_max_pic_order_cnt_lsb_minus4 : Nat
  tool_flags : Nat
  deriving Repr, DecidableEq

/-- Modelled from the spec: the decoded picture-parameter-set record of
evc_ps.h (not part of src), keyed by its embedded id; carries the fields
the slice-header decoder depends on (tile-id field width, presence of the
arbitrary-slice syntax). -/
structure EVCParserPPS where
  pps_pic_parameter_set_id : Nat
  pps_seq_parameter_set_id : Nat
  single_tile_in_pic_flag : Nat
  tile_id_len_minus1 : Nat
  arbitrary_slice_present_flag : Nat
  deriving Repr, DecidableEq

/-- Modelled from the spec: the parameter-set store of evc_ps.h (not part
of src) — one id-keyed family for sequence-level sets and one for
picture-level sets. -/
structure EVCParamSets where
  sps : Nat → Option EVCParserSPS
  pps : Nat → Option EVCParserPPS

/-- Embedding of the EVCParserSliceHeader struct (evc_parse.h lines
43-75); the fixed-capacity delta_tile_id_minus1 array becomes a list whose
length the decoder bounds.  Fields the modelled decoder does not reach
(the ALF configuration block) default to 0. -/
structure EVCParserSliceHeader where
  slice_pic_parameter_set_id : Nat
  single_tile_in_slice_flag : Nat
  first_tile_id : Nat
  arbitrary_slice_flag : Nat
  last_tile_id : Nat
  num_remaining_tiles_in_slice_minus1 : Nat
  delta_tile_id_minus1 : List Nat
  slice_type : Nat
  no_output_of_prior_pics_flag : Nat := 0
  mmvd_group_enable_flag : Nat := 0
  slice_alf_enabled_flag : Nat := 0
  slice_alf_luma_aps_id : Nat := 0
  slice_alf_map_flag : Nat := 0
  slice_alf_chroma_idc : Nat := 0
  slice_alf_chroma_aps_id : Nat := 0
  slice_alf_chroma_map_flag : Nat := 0
  slice_alf_chroma2_aps_id : Nat := 0
  slice_alf_chroma2_map_flag : Nat := 0
  slice_pic_order_cnt_lsb : Nat
  deriving Repr, DecidableEq

/-- Embedding of the EVCParserPoc struct (evc_parse.h lines 78-82). -/
structure EVCParserPoc where
  PicOrderCntVal : Int
  prevPicOrderCntVal : Int
  DocOffset : Int
  deriving Repr, DecidableEq

/-- Embedding of AVRational (libavutil/rational.h collaborator). -/
structure AVRational where
  num : Int
  den : Int
  deriving Repr, DecidableEq

/-- Embedding of the EVCParserContext struct (evc_parse.h lines 84-128). -/
structure EVCParserContext where
  ps : EVCParamSets
  poc : EVCParserPoc
  nuh_temporal_id : Int
  nalu_type : Int
  width : Int
  height : Int
  coded_width : Int
  coded_height : Int
  format : Int
  pict_type : Int
  key_frame : Int
  output_picture_number : Int
  profile : Int
  framerate : AVRational
  gop_size : Int
  delay : Int
  parsed_extradata : Int

/-- Modelled from the spec: the sequence-parameter-set decoder of
evc_parse.c / evc_ps.c (not part of src) — "decodes a self-contained
record (profile, resolution, chroma format, frame-rate
numerator/denominator, GOP size, bit depth, tiling layout, tool-enable
flags) from bits following the header, storing it keyed by its embedded
id"; each field is an Exp-Golomb element read in the record's field
order. -/
def sps_decode (bits : List Nat) : Option EVCParserSPS := do
  let (id, p1) ← get_ue_golomb bits 0
  let (prof, p2) ← get_ue_golomb bits p1
  let (w, p3) ← get_ue_golomb bits p2
  let (h, p4) ← get_ue_golomb bits p3
  let (chroma, p5) ← get_ue_golomb bits p4
  let (depth, p6) ← get_ue_golomb bits p5
  let (fnum, p7) ← get_ue_golomb bits p6
  let (fden, p8) ← get_ue_golomb bits p7
  let (gop, p9) ← get_ue_golomb bits p8
  let (lsb4, p10) ← get_ue_golomb bits p9
  let (tools, _) ← get_ue_golomb bits p10
  some { sps_seq_parameter_set_id := id, profile_idc := prof,
         pic_width_in_luma_samples := w, pic_height_in_luma_samples := h,
         chroma_format_idc := chroma, bit_depth_luma_minus8 := depth,
         framerate_num := fnum, framerate_den := fden, gop_size := gop,
         log2_max_pic_order_cnt_lsb_minus4 := lsb4, tool_flags := tools }

/-- Modelled from the spec: storing a decoded sequence-parameter-set
record into its id-keyed family — "redecoding an id overwrites (newest
wins), never implicitly evicted"; a record that fails to decode leaves
the store untouched. -/
def evc_parse_sps (ps : EVCParamSets) (bits : List Nat) : EVCParamSets :=
  match sps_decode bits with
  | none => ps
  | some s =>
    { ps with sps := fun i => if i = s.sps_seq_parameter_set_id then some s else ps.sps i }

/-- Modelled from the spec: the picture-parameter-set decoder (not part
of src), reading the fields the slice-header decoder depends on, keyed by
the embedded id. -/
def pps_decode (bits : List Nat) : Option EVCParserPPS := do
  let (id, p1) ← get_ue_golomb bits 0
  let (sid, p2) ← get_ue_golomb bits p1
  let stp ← read_bit bits p2
  let (tlen, p3) ← get_ue_golomb bits (p2 + 1)
  let arb ← read_bit bits p3
  some { pps_pic_parameter_set_id := id, pps_seq_parameter_set_id := sid,
         single_tile_in_pic_flag := stp, tile_id_len_minus1 := tlen,
         arbitrary_slice_present_flag := arb }

/-- Modelled from the spec: storing a decoded picture-parameter-set
record into its id-keyed family (newest wins, no implicit eviction). -/
def evc_parse_pps (ps : EVCParamSets) (bits : List Nat) : EVCParamSets :=
  match pps_decode bits with
  | none => ps
  | some p =>
    { ps with pps := fun i => if i = p.pps_pic_parameter_set_id then some p else ps.pps i }

/-- The tiling fields of a slice header together with the cursor after
them; intermediate result of the modelled slice-header decoder. -/
structure EVCSliceTiles where
  single_tile_in_slice_flag : Nat
  first_tile_id : Nat
  arbitrary_slice_flag : Nat
  last_tile_id : Nat
  num_remaining_tiles_in_slice_minus1 : Nat
  delta_tile_id_minus1 : List Nat
  deriving Repr, DecidableEq

/-- Modelled from the spec: the tiling part of the slice-header decoder
(evc_parse.c, not part of src), following the field order of the
EVCParserSliceHeader struct: single_tile_in_slice_flag u(1); when the
slice is not single-tile, first_tile_id u(v) whose width the referenced
picture parameter set signals, then (when the parameter set signals
arbitrary-slice syntax) arbitrary_slice_flag u(1); an arbitrary slice
carries num_remaining_tiles_in_slice_minus1 ue(v) followed by exactly
num_remaining_tiles_in_slice_minus1 + 1 per-tile delta ids, rejected as a
fatal decode error when that count exceeds the maximum tile-grid size;
otherwise last_tile_id u(v). -/
def parse_slice_tiles (pps : EVCParserPPS) (bits : List Nat) (pos : Nat) :
    Except String (EVCSliceTiles × Nat) :=
  match read_bit bits pos with
  | none => .error "truncated slice header"
  | some stf =>
    if stf = 1 then
      .ok (⟨1, 0, 0, 0, 0, []⟩, pos + 1)
    else
      let w := pps.tile_id_len_minus1 + 1
      match read_bits bits (pos + 1) w with
      | none => .error "truncated slice header"
      | some ftid =>
        if pps.arbitrary_slice_present_flag = 1 then
          match read_bit bits (pos + 1 + w) with
          | none => .error "truncated slice header"
          | some arb =>
            if arb = 1 then
              match get_ue_golomb bits (pos + 2 + w) with
              | none => .error "truncated slice header"
              | some (nrem, q) =>
                if EVC_MAX_TILE_ROWS * EVC_MAX_TILE_COLUMNS < nrem + 1 then
                  .error "num_tiles_in_slice exceeds the maximum tile grid size"
                else
                  match read_ue_list bits q (nrem + 1) with
                  | none => .error "truncated slice header"
                  | some (ds, r) => .ok (⟨0, ftid, 1, 0, nrem, ds⟩, r)
            else
              match read_bits bits (pos + 2 + w) w with
              | none => .error "truncated slice header"
              | some ltid => .ok (⟨0, ftid, 0, ltid, 0, []⟩, pos + 2 + 2 * w)
        else
          match read_bits bits (pos + 1 + w) w with
          | none => .error "truncated slice header"
          | some ltid => .ok (⟨0, ftid, 0, ltid, 0, []⟩, pos + 1 + 2 * w)

/-- Modelled from the spec: the slice-header decoder (evc_parse.c, not
part of src).  Reads the referenced parameter-set id, fails when that id
is absent from either store, decodes the tiling fields, the slice type
and the POC low-order bits (whose width the sequence parameter set
signals); the ALF configuration block is beyond the scope of the modelled
claims and stays at its defaults. -/
def parse_slice_header (ps : EVCParamSets) (bits : List Nat) :
    Except String (EVCParserSliceHeader × EVCParserSPS) :=
  match get_ue_golomb bits 0 with
  | none => .error "truncated slice header"
  | some (ppsId, p1) =>
    match ps.pps ppsId with
    | none => .error "pps is not available"
    | some pps =>
      match ps.sps pps.pps_seq_parameter_set_id with
      | none => .error "sps is not available"
      | some sps =>
        match parse_slice_tiles pps bits p1 with
        | .error e => .error e
        | .ok (t, p2) =>
          match get_ue_golomb bits p2 with
          | none => .error "truncated slice header"
          | some (stype, p3) =>
            match read_bits bits p3 (sps.log2_max_pic_order_cnt_lsb_minus4 + 4) with
            | none => .error "truncated slice header"
            | some lsb =>
              .ok ({ slice_pic_parameter_set_id := ppsId,
                     single_tile_in_slice_flag := t.single_tile_in_slice_flag,
                     first_tile_id := t.first_tile_id,
                     arbitrary_slice_flag := t.arbitrary_slice_flag,
                     last_tile_id := t.last_tile_id,
                     num_remaining_tiles_in_slice_minus1 :=
                       t.num_remaining_tiles_in_slice_minus1,
                     delta_tile_id_minus1 := t.delta_tile_id_minus1,
                     slice_type := stype,
                     slice_pic_order_cnt_lsb := lsb }, sps)

/-- Modelled from the spec (§4.5): the picture-order-count tracker of
evc_parse.c (not part of src).  Given freshly decoded POC low bits and
the unit's temporal id: temporal id 0 sets the current absolute POC
directly from the low bits and updates the stored temporal-id-0
reference; otherwise the absolute POC is the low-order value added to the
most recent temporal-id-0 reference split at the low-order field's
modulus `maxPocLsb`, corrected by one modulus for wraparound in either
direction.  The decoding-order offset increments once per unit regardless
of temporal id. -/
def poc_update (poc : EVCParserPoc) (temporal_id lsb maxPocLsb : Nat) : EVCParserPoc :=
  if temporal_id = 0 then
    { PicOrderCntVal := (lsb : Int), prevPicOrderCntVal := (lsb : Int),
      DocOffset := poc.DocOffset + 1 }
  else
    let M : Int := (maxPocLsb : Int)
    let prev := poc.prevPicOrderCntVal
    let prevLsb := prev % M
    let prevMsb := prev - prevLsb
    let msb : Int :=
      if (lsb : Int) < prevLsb ∧ M / 2 ≤ prevLsb - (lsb : Int) then prevMsb + M
      else if prevLsb < (lsb : Int) ∧ M / 2 < (lsb : Int) - prevLsb then prevMsb - M
      else prevMsb
    { PicOrderCntVal := msb + (lsb : Int), prevPicOrderCntVal := poc.prevPicOrderCntVal,
      DocOffset := poc.DocOffset + 1 }

/-- Modelled from the spec (§4.6): the slice branch of the orchestrator
ff_evc_parse_nal_unit (evc_parse.c, not part of src): a slice unit must
find its referenced parameter sets (else a fatal error for the unit that
leaves the context untouched), then the slice header is decoded, the POC
tracker runs with the modulus the sequence parameter set signals, and the
caller-visible derived fields are republished.  The result carries the
updated context, the status (0 on success, -1 on failure) and the log
messages. -/
def parse_slice_nal (ctx : EVCParserContext) (temporal_id : Nat) (bits : List Nat) :
    EVCParserContext × Int × List String :=
  match parse_slice_header ctx.ps bits with
  | .error e => (ctx, -1, [e])
  | .ok (sh, sps) =>
    let maxPocLsb := 2 ^ (sps.log2_max_pic_order_cnt_lsb_minus4 + 4)
    let poc2 := poc_update ctx.poc temporal_id sh.slice_pic_order_cnt_lsb maxPocLsb
    ({ ctx with
         poc := poc2,
         nuh_temporal_id := (temporal_id : Int),
         pict_type := (sh.slice_type : Int),
         key_frame := if sh.slice_type = 2 ∧ sh.slice_pic_order_cnt_lsb = 0 then 1 else 0,
         output_picture_number := poc2.PicOrderCntVal }, 0, [])

/-- An empty parameter-set store (no id decoded yet). -/
def psE : EVCParamSets := ⟨fun _ => none, fun _ => none⟩

/-- The all-zero sequence-parameter-set record, as decoded from a buffer
of eleven one-bits (eleven Exp-Golomb zeros). -/
def spsA : EVCParserSPS := ⟨0, 0, 0, 0, 0, 0, 0, 0, 0, 0, 0⟩

/-- A sequence-parameter-set record with embedded id 1. -/
def spsB : EVCParserSPS := ⟨1, 0, 0, 0, 0, 0, 0, 0, 0, 0, 0⟩

/-- A picture-parameter-set record referencing sequence set 0, with
1-bit tile ids and the arbitrary-slice syntax present. -/
def pps0 : EVCParserPPS := ⟨0, 0, 0, 0, 1⟩

/-- A picture-parameter-set record with embedded id 1, as decoded from
the buffer 0x5F. -/
def ppsB : EVCParserPPS := ⟨1, 0, 1, 0, 1⟩

/-- A store holding `spsA` at id 0 and `pps0` at id 0. -/
def ps0 : EVCParamSets :=
  ⟨fun i => if i = 0 then some spsA else none,
   fun i => if i = 0 then some pps0 else none⟩

/-- A freshly initialised parser context over the empty store. -/
def ctx0 : EVCParserContext :=
  ⟨psE, ⟨0, 0, 0⟩, 0, 0, 0, 0, 0, 0, 0, 0, 0, 0, 0, ⟨0, 1⟩, 0, 0, 0⟩

/-- The slice header decoded from `ps0` and the buffer 0x9E 0x00: an
arbitrary slice with one remaining tile, delta list [0]. -/
def sh0 : EVCParserSliceHeader :=
  ⟨0, 0, 0, 1, 0, 0, [0], 0, 0, 0, 0, 0, 0, 0, 0, 0, 0, 0, 0⟩

theorem byteAt_lt (bits : List Nat) (i : Nat) : byteAt bits i < 256 :=
  Nat.mod_lt _ (by omega)

theorem byteAt_cons_zero (b : Nat) (l : List Nat) : byteAt (b :: l) 0 = b % 256 := rfl

/-- C1: For every buffer of at least EVC_NALU_HEADER_SIZE bytes whose first
byte has the forbidden leading bit clear, `evc_get_nalu_type` returns the
on-wire nal_unit_type field value minus 1 with no range validation; the
return value is at least -1 and is negative exactly when the wire field
value is 0 (amended: the unvalidated wire value 0 makes the result -1,
so "never negative" does not hold). -/
theorem evc_get_nalu_type_success (bits : List Nat)
    (h1 : EVC_NALU_HEADER_SIZE ≤ bits.length)
    (h2 : byteAt bits 0 &&& 0x80 = 0) :
    (evc_get_nalu_type bits).1 = (((byteAt bits 0 >>> 1) &&& 0x3F : Nat) : Int) - 1 ∧
    -1 ≤ (evc_get_nalu_type bits).1 ∧
    ((evc_get_nalu_type bits).1 < 0 ↔ (byteAt bits 0 >>> 1) &&& 0x3F = 0) := by
  have he : evc_get_nalu_type bits
      = ((((byteAt bits 0 >>> 1) &&& 0x3F : Nat) : Int) - 1, []) := by
    unfold evc_get_nalu_type
    rw [if_pos h1, if_neg (fun hc => hc h2)]
  rw [he]
  refine ⟨rfl, ?_, ?_⟩ <;> omega

/-- C1 counterexample: the buffer 0x00 0x00 meets the claim's premises
(length ≥ header size, forbidden bit clear) yet the return value is
negative, refuting "this return value is never negative". -/
theorem evc_get_nalu_type_c1_cex :
    EVC_NALU_HEADER_SIZE ≤ ([0, 0] : List Nat).length ∧
    byteAt [0, 0] 0 &&& 0x80 = 0 ∧
    (evc_get_nalu_type [0, 0]).1 < 0 := by decide

/-- C1 witness: the amended success theorem instantiated at the concrete
buffer 0x02 0x00 (wire type field 1). -/
theorem evc_get_nalu_type_success_witness :
    (evc_get_nalu_type [2, 0]).1 = (((byteAt [2, 0] 0 >>> 1) &&& 0x3F : Nat) : Int) - 1 ∧
    -1 ≤ (evc_get_nalu_type [2, 0]).1 ∧
    ((evc_get_nalu_type [2, 0]).1 < 0 ↔ (byteAt [2, 0] 0 >>> 1) &&& 0x3F = 0) :=
  evc_get_nalu_type_success [2, 0] (by decide) (by decide)

/-- C2: for every buffer shorter than EVC_NALU_HEADER_SIZE, and for every
buffer whose first byte has the forbidden leading bit set,
`evc_get_nalu_type` returns -1; moreover the result (value and log alike)
is unchanged when every byte after the first is replaced, i.e. no byte
beyond the first is read. -/
theorem evc_get_nalu_type_failure (bits : List Nat)
    (h : bits.length < EVC_NALU_HEADER_SIZE ∨ byteAt bits 0 &&& 0x80 ≠ 0) :
    (evc_get_nalu_type bits).1 = -1 ∧
    ∀ rest : List Nat, rest.length + 1 = bits.length →
      evc_get_nalu_type (bits.headD 0 :: rest) = evc_get_nalu_type bits := by
  constructor
  · unfold evc_get_nalu_type
    rcases h with h | h
    · rw [if_neg (by omega)]; decide
    · by_cases hl : EVC_NALU_HEADER_SIZE ≤ bits.length
      · rw [if_pos hl, if_pos h]
      · rw [if_neg hl]; decide
  · intro rest hr
    cases bits with
    | nil => simp at hr
    | cons b t =>
      have hlen : (List.headD (b :: t) 0 :: rest).length = (b :: t).length := by
        simp at hr ⊢; omega
      have hb : byteAt (List.headD (b :: t) 0 :: rest) 0 = byteAt (b :: t) 0 := rfl
      unfold evc_get_nalu_type
      rw [hlen, hb]

/-- C2 witness: failure theorem at the concrete forbidden-bit buffer
0x80 0x00, and replacing its second byte leaves the result unchanged. -/
theorem evc_get_nalu_type_failure_witness :
    (evc_get_nalu_type [128, 0]).1 = -1 ∧
    evc_get_nalu_type [128, 5] = evc_get_nalu_type [128, 0] := by
  have h := evc_get_nalu_type_failure [128, 0] (Or.inr (by decide))
  exact ⟨h.1, h.2 [5] (by decide)⟩

/-- C9: for every buffer of at least EVC_NALU_HEADER_SIZE bytes the return
value of `evc_get_nalu_type` lies in [-1, 62] (that is, in the set
consisting of -1 and the interval [0, 62]), depends only on the buffer's
first byte, and is the sentinel-indistinguishable -1 whenever the on-wire
nal_unit_type field is 0 with the forbidden bit clear. -/
theorem evc_get_nalu_type_first_byte (bits : List Nat)
    (h : EVC_NALU_HEADER_SIZE ≤ bits.length) :
    (-1 ≤ (evc_get_nalu_type bits).1 ∧ (evc_get_nalu_type bits).1 ≤ 62) ∧
    (∀ bits2 : List Nat, EVC_NALU_HEADER_SIZE ≤ bits2.length →
       byteAt bits2 0 = byteAt bits 0 →
       evc_get_nalu_type bits2 = evc_get_nalu_type bits) ∧
    (byteAt bits 0 &&& 0x80 = 0 → (byteAt bits 0 >>> 1) &&& 0x3F = 0 →
       (evc_get_nalu_type bits).1 = -1) := by
  have hw : (byteAt bits 0 >>> 1) &&& 0x3F ≤ 63 := Nat.and_le_right
  refine ⟨?_, ?_, ?_⟩
  · unfold evc_get_nalu_type
    by_cases hb : byteAt bits 0 &&& 0x80 ≠ 0
    · rw [if_pos h, if_pos hb]
      exact ⟨by decide, by decide⟩
    · rw [if_pos h, if_neg hb]
      dsimp only
      constructor <;> omega
  · intro bits2 h2 hbyte
    unfold evc_get_nalu_type
    rw [if_pos h, if_pos h2, hbyte]
  · intro hb hz
    unfold evc_get_nalu_type
    rw [if_pos h, if_neg (fun hc => hc hb), hz]
    decide

/-- C9 witness: the first-byte theorem instantiated at the buffer
0x00 0x00 and the same-first-byte buffer 0x00 0x4D. -/
theorem evc_get_nalu_type_first_byte_witness :
    (-1 ≤ (evc_get_nalu_type [0, 0]).1 ∧ (evc_get_nalu_type [0, 0]).1 ≤ 62) ∧
    evc_get_nalu_type [0, 77] = evc_get_nalu_type [0, 0] ∧
    (evc_get_nalu_type [0, 0]).1 = -1 := by
  have h := evc_get_nalu_type_first_byte [0, 0] (by decide)
  exact ⟨h.1, h.2.1 [0, 77] (by decide) (by decide), h.2.2 (by decide) (by decide)⟩

/-- C3: `evc_read_nal_unit_length` on a buffer of fewer than 4 bytes
returns 0 and logs; on a buffer of at least 4 bytes it returns the exact
big-endian value of the first 4 bytes without further validation, and in
particular bytes 0x00 0x00 0x01 0x2C yield 300. -/
theorem evc_read_nal_unit_length_spec (bits : List Nat) :
    (bits.length < EVC_NALU_LENGTH_PREFIX_SIZE →
       evc_read_nal_unit_length bits = (0, ["Can't read NAL unit length\n"])) ∧
    (EVC_NALU_LENGTH_PREFIX_SIZE ≤ bits.length →
       evc_read_nal_unit_length bits = (be32_of_first4 bits, [])) ∧
    (evc_read_nal_unit_length [0x00, 0x00, 0x01, 0x2C]).1 = 300 := by
  refine ⟨?_, ?_, by decide⟩
  · intro h
    unfold evc_read_nal_unit_length
    rw [if_pos h]
  · intro h
    unfold evc_read_nal_unit_length
    rw [if_neg (by omega)]
    rcases bits with _ | ⟨b0, _ | ⟨b1, _ | ⟨b2, _ | ⟨b3, rest⟩⟩⟩⟩
    · simp [EVC_NALU_LENGTH_PREFIX_SIZE] at h
    · simp [EVC_NALU_LENGTH_PREFIX_SIZE] at h
    · simp [EVC_NALU_LENGTH_PREFIX_SIZE] at h
    · simp [EVC_NALU_LENGTH_PREFIX_SIZE] at h
    · have e1 : AV_RB32 (b0 :: b1 :: b2 :: b3 :: rest)
          = b0 % 256 * 2 ^ 24 + b1 % 256 * 2 ^ 16 + b2 % 256 * 2 ^ 8 + b3 % 256 := rfl
      have e2 : be32_of_first4 (b0 :: b1 :: b2 :: b3 :: rest)
          = (((0 * 256 + b0 % 256) * 256 + b1 % 256) * 256 + b2 % 256) * 256 + b3 % 256 := rfl
      rw [Prod.mk.injEq]
      refine ⟨?_, rfl⟩
      rw [e1, e2]
      ring

/-- C3 witness: the length-reader theorem instantiated at a 1-byte buffer
and at the 4-byte buffer 0x00 0x00 0x01 0x2C. -/
theorem evc_read_nal_unit_length_spec_witness :
    evc_read_nal_unit_length [7] = (0, ["Can't read NAL unit length\n"]) ∧
    evc_read_nal_unit_length [0, 0, 1, 44] = (be32_of_first4 [0, 0, 1, 44], []) :=
  ⟨(evc_read_nal_unit_length_spec [7]).1 (by decide),
   (evc_read_nal_unit_length_spec [0, 0, 1, 44]).2.1 (by decide)⟩

/-- C10: `evc_read_nal_unit_length` returns 0 exactly when the buffer has
fewer than 4 bytes or its first 4 bytes are all zero, so a genuine zero
length prefix is indistinguishable from the truncated-buffer failure by
the returned value alone. -/
theorem evc_read_nal_unit_length_zero_iff (bits : List Nat) :
    (evc_read_nal_unit_length bits).1 = 0 ↔
      (bits.length < EVC_NALU_LENGTH_PREFIX_SIZE ∨
        (byteAt bits 0 = 0 ∧ byteAt bits 1 = 0 ∧ byteAt bits 2 = 0 ∧ byteAt bits 3 = 0)) := by
  unfold evc_read_nal_unit_length
  by_cases h : bits.length < EVC_NALU_LENGTH_PREFIX_SIZE
  · rw [if_pos h]
    simp [h]
  · rw [if_neg h]
    unfold AV_RB32
    constructor
    · intro hz
      right
      omega
    · intro hc
      rcases hc with hc | hc
      · exact absurd hc h
      · omega

/-- C5: with an 8-bit POC low-order field (modulus 256), a temporal-id-0
unit carrying low bits 250 sets the absolute POC and the stored
temporal-id-0 reference to 250, and a following unit of any nonzero
temporal id carrying low bits 4 reconstructs absolute POC 260, not 4
(wraparound correction by one modulus). -/
theorem poc_update_wraparound (p : EVCParserPoc) (t : Nat) (ht : t ≠ 0) :
    (poc_update p 0 250 256).PicOrderCntVal = 250 ∧
    (poc_update p 0 250 256).prevPicOrderCntVal = 250 ∧
    (poc_update (poc_update p 0 250 256) t 4 256).PicOrderCntVal = 260 ∧
    (poc_update (poc_update p 0 250 256) t 4 256).PicOrderCntVal ≠ 4 := by
  have h1 : poc_update p 0 250 256
      = { PicOrderCntVal := 250, prevPicOrderCntVal := 250,
          DocOffset := p.DocOffset + 1 } := by
    unfold poc_update
    norm_num
  rw [h1]
  have h2 : poc_update ({ PicOrderCntVal := 250, prevPicOrderCntVal := 250,
                          DocOffset := p.DocOffset + 1 } : EVCParserPoc) t 4 256
      = { PicOrderCntVal := 260, prevPicOrderCntVal := 250,
          DocOffset := p.DocOffset + 2 } := by
    unfold poc_update
    rw [if_neg ht]
    norm_num
    omega
  rw [h2]
  norm_num

/-- C5 witness: the wraparound theorem at the zero-initialised tracker
and temporal id 1. -/
theorem poc_update_wraparound_witness :
    (poc_update ⟨0, 0, 0⟩ 0 250 256).PicOrderCntVal = 250 ∧
    (poc_update ⟨0, 0, 0⟩ 0 250 256).prevPicOrderCntVal = 250 ∧
    (poc_update (poc_update ⟨0, 0, 0⟩ 0 250 256) 1 4 256).PicOrderCntVal = 260 ∧
    (poc_update (poc_update ⟨0, 0, 0⟩ 0 250 256) 1 4 256).PicOrderCntVal ≠ 4 :=
  poc_update_wraparound ⟨0, 0, 0⟩ 1 (by decide)

/-- C6: a slice unit whose referenced picture-parameter-set id is absent
from the store fails with the fatal status and the logged message, and
the context — the picture-order-count state in particular — is returned
unchanged. -/
theorem parse_slice_missing_ps (ctx : EVCParserContext) (temporal_id : Nat)
    (bits : List Nat) (id p1 : Nat)
    (hdec : get_ue_golomb bits 0 = some (id, p1))
    (habs : ctx.ps.pps id = none) :
    parse_slice_nal ctx temporal_id bits = (ctx, -1, ["pps is not available"]) ∧
    (parse_slice_nal ctx temporal_id bits).1.poc = ctx.poc := by
  have h : parse_slice_header ctx.ps bits = .error "pps is not available" := by
    unfold parse_slice_header
    rw [hdec]
    dsimp only
    rw [habs]
  constructor
  · unfold parse_slice_nal
    rw [h]
  · unfold parse_slice_nal
    rw [h]

/-- C6 witness: the missing-parameter-set theorem at the fresh context
(empty store) and the slice buffer 0x80, whose first Exp-Golomb element
references picture parameter set 0. -/
theorem parse_slice_missing_ps_witness :
    parse_slice_nal ctx0 1 [128] = (ctx0, -1, ["pps is not available"]) ∧
    (parse_slice_nal ctx0 1 [128]).1.poc = ctx0.poc :=
  parse_slice_missing_ps ctx0 1 [128] 0 1 (by decide) rfl

/-- C7: parameter-set decoding into the store is idempotent and commutes
across distinct ids, in both families — decoding the same bytes twice
stores the identical record that decoding them once stores (no field
accumulation), decodes of bytes embedding different ids in the same
family are order-independent, as are decodes into different families,
redecoding an id overwrites the previous record for that id (newest
wins), and no stored record of either family is ever implicitly evicted
by a decode, whether of the same family or of the other one. -/
theorem evc_param_sets_store (ps : EVCParamSets)
    (b b2 b3 c c2 c3 : List Nat)
    (r r2 r3 : EVCParserSPS) (s s2 s3 : EVCParserPPS)
    (h1 : sps_decode b = some r) (h2 : sps_decode b2 = some r2)
    (h3 : sps_decode b3 = some r3)
    (hne : r2.sps_seq_parameter_set_id ≠ r.sps_seq_parameter_set_id)
    (hid : r3.sps_seq_parameter_set_id = r.sps_seq_parameter_set_id)
    (g1 : pps_decode c = some s) (g2 : pps_decode c2 = some s2)
    (g3 : pps_decode c3 = some s3)
    (gne : s2.pps_pic_parameter_set_id ≠ s.pps_pic_parameter_set_id)
    (gid : s3.pps_pic_parameter_set_id = s.pps_pic_parameter_set_id) :
    ((∀ j, (evc_parse_sps (evc_parse_sps ps b) b).sps j = (evc_parse_sps ps b).sps j) ∧
     (evc_parse_sps (evc_parse_sps ps b) b).sps r.sps_seq_parameter_set_id = some r ∧
     (∀ j, (evc_parse_sps (evc_parse_sps ps b) b2).sps j
         = (evc_parse_sps (evc_parse_sps ps b2) b).sps j) ∧
     (evc_parse_sps (evc_parse_sps ps b) b3).sps r.sps_seq_parameter_set_id = some r3 ∧
     (∀ j, j ≠ r.sps_seq_parameter_set_id → (evc_parse_sps ps b).sps j = ps.sps j) ∧
     (∀ j, (evc_parse_sps ps b).pps j = ps.pps j)) ∧
    ((∀ j, (evc_parse_pps (evc_parse_pps ps c) c).pps j = (evc_parse_pps ps c).pps j) ∧
     (evc_parse_pps (evc_parse_pps ps c) c).pps s.pps_pic_parameter_set_id = some s ∧
     (∀ j, (evc_parse_pps (evc_parse_pps ps c) c2).pps j
         = (evc_parse_pps (evc_parse_pps ps c2) c).pps j) ∧
     (evc_parse_pps (evc_parse_pps ps c) c3).pps s.pps_pic_parameter_set_id = some s3 ∧
     (∀ j, j ≠ s.pps_pic_parameter_set_id → (evc_parse_pps ps c).pps j = ps.pps j) ∧
     (∀ j, (evc_parse_pps ps c).sps j = ps.sps j)) ∧
    (∀ j, (evc_parse_pps (evc_parse_sps ps b) c).sps j
        = (evc_parse_sps (evc_parse_pps ps c) b).sps j) ∧
    (∀ j, (evc_parse_pps (evc_parse_sps ps b) c).pps j
        = (evc_parse_sps (evc_parse_pps ps c) b).pps j) := by
  simp only [evc_parse_sps, evc_parse_pps, h1, h2, h3, g1, g2, g3]
  refine ⟨⟨?_, ?_, ?_, ?_, ?_, ?_⟩, ⟨?_, ?_, ?_, ?_, ?_, ?_⟩, ?_, ?_⟩
  · intro j
    by_cases hj : j = r.sps_seq_parameter_set_id <;> simp [hj]
  · simp
  · intro j
    by_cases hj : j = r.sps_seq_parameter_set_id
    · simp [hj, Ne.symm hne]
    · by_cases hj2 : j = r2.sps_seq_parameter_set_id <;> simp [hj, hj2, hne]
  · simp [hid]
  · intro j hj
    simp [hj]
  · intro j
    trivial
  · intro j
    by_cases hj : j = s.pps_pic_parameter_set_id <;> simp [hj]
  · simp
  · intro j
    by_cases hj : j = s.pps_pic_parameter_set_id
    · simp [hj, Ne.symm gne]
    · by_cases hj2 : j = s2.pps_pic_parameter_set_id <;> simp [hj, hj2, gne]
  · simp [gid]
  · intro j hj
    simp [hj]
  · intro j
    trivial
  · intro j
    trivial
  · intro j
    trivial

/-- C7 witness: the store theorem at the empty store, with sequence sets
decoded from 0xFF 0xFF (the all-zero record, id 0) and 0x5F 0xFF (id 1),
and picture sets decoded from 0xDC (id 0) and 0x5F (id 1), each family
including a redecode of its first buffer. -/
theorem evc_param_sets_store_witness :
    ((evc_parse_sps (evc_parse_sps psE [255, 255]) [255, 255]).sps 0
       = (evc_parse_sps psE [255, 255]).sps 0 ∧
     (evc_parse_sps (evc_parse_sps psE [255, 255]) [255, 255]).sps 0 = some spsA ∧
     (evc_parse_sps (evc_parse_sps psE [255, 255]) [95, 255]).sps 1
       = (evc_parse_sps (evc_parse_sps psE [95, 255]) [255, 255]).sps 1 ∧
     (evc_parse_sps (evc_parse_sps psE [255, 255]) [255, 255]).sps 0 = some spsA ∧
     (evc_parse_sps psE [255, 255]).sps 7 = psE.sps 7 ∧
     (evc_parse_sps psE [255, 255]).pps 0 = psE.pps 0) ∧
    ((evc_parse_pps (evc_parse_pps psE [220]) [220]).pps 0
       = (evc_parse_pps psE [220]).pps 0 ∧
     (evc_parse_pps (evc_parse_pps psE [220]) [220]).pps 0 = some pps0 ∧
     (evc_parse_pps (evc_parse_pps psE [220]) [95]).pps 1
       = (evc_parse_pps (evc_parse_pps psE [95]) [220]).pps 1 ∧
     (evc_parse_pps (evc_parse_pps psE [220]) [220]).pps 0 = some pps0 ∧
     (evc_parse_pps psE [220]).pps 7 = psE.pps 7 ∧
     (evc_parse_pps psE [220]).sps 0 = psE.sps 0) ∧
    (evc_parse_pps (evc_parse_sps psE [255, 255]) [220]).sps 0
      = (evc_parse_sps (evc_parse_pps psE [220]) [255, 255]).sps 0 ∧
    (evc_parse_pps (evc_parse_sps psE [255, 255]) [220]).pps 0
      = (evc_parse_sps (evc_parse_pps psE [220]) [255, 255]).pps 0 := by
  have h := evc_param_sets_store psE [255, 255] [95, 255] [255, 255] [220] [95] [220]
    spsA spsB spsA pps0 ppsB pps0
    (by decide) (by decide) (by decide) (by decide) rfl
    (by decide) (by decide) (by decide) (by decide) rfl
  exact ⟨⟨h.1.1 0, h.1.2.1, h.1.2.2.1 1, h.1.2.2.2.1, h.1.2.2.2.2.1 7 (by decide),
          h.1.2.2.2.2.2 0⟩,
         ⟨h.2.1.1 0, h.2.1.2.1, h.2.1.2.2.1 1, h.2.1.2.2.2.1,
          h.2.1.2.2.2.2.1 7 (by decide), h.2.1.2.2.2.2.2 0⟩,
         h.2.2.1 0, h.2.2.2 0⟩

/-- A run of `n` Exp-Golomb values, when it succeeds, has length exactly
`n`. -/
theorem read_ue_list_length (bits : List Nat) :
    ∀ (n pos : Nat) (l : List Nat) (q : Nat),
      read_ue_list bits pos n = some (l, q) → l.length = n := by
  intro n
  induction n with
  | zero =>
    intro pos l q h
    unfold read_ue_list at h
    simp only [Option.some.injEq, Prod.mk.injEq] at h
    obtain ⟨hl, hq⟩ := h
    subst hl
    rfl
  | succ n ih =>
    intro pos l q h
    unfold read_ue_list at h
    split at h
    · exact absurd h (by simp)
    · rename_i v pos2 hg
      split at h
      · exact absurd h (by simp)
      · rename_i vs pos3 hr
        simp only [Option.some.injEq, Prod.mk.injEq] at h
        obtain ⟨hl, hq⟩ := h
        subst hl
        simp [ih pos2 vs pos3 hr]

/-- A successful tiling parse never stores more per-tile delta ids than
the maximum tile-grid size, and in the arbitrary-slice branch stores
exactly `num_remaining_tiles_in_slice_minus1 + 1` of them. -/
theorem parse_slice_tiles_ok (pps : EVCParserPPS) (bits : List Nat) (pos : Nat)
    (t : EVCSliceTiles) (p2 : Nat)
    (h : parse_slice_tiles pps bits pos = .ok (t, p2)) :
    t.delta_tile_id_minus1.length ≤ EVC_MAX_TILE_ROWS * EVC_MAX_TILE_COLUMNS ∧
    (t.arbitrary_slice_flag = 1 →
      t.delta_tile_id_minus1.length = t.num_remaining_tiles_in_slice_minus1 + 1) := by
  cases hb : read_bit bits pos with
  | none => simp [parse_slice_tiles, hb] at h
  | some stf =>
    by_cases hs : stf = 1
    · simp [parse_slice_tiles, hb, hs] at h
      obtain ⟨ht, hp⟩ := h
      subst ht
      exact ⟨by decide, fun ha => absurd ha (by decide)⟩
    · cases hf : read_bits bits (pos + 1) (pps.tile_id_len_minus1 + 1) with
      | none => simp [parse_slice_tiles, hb, hs, hf] at h
      | some ftid =>
        by_cases hpres : pps.arbitrary_slice_present_flag = 1
        · cases ha : read_bit bits (pos + 1 + (pps.tile_id_len_minus1 + 1)) with
          | none => simp [parse_slice_tiles, hb, hs, hf, hpres, ha] at h
          | some arb =>
            by_cases harb : arb = 1
            · cases hn : get_ue_golomb bits (pos + 2 + (pps.tile_id_len_minus1 + 1)) with
              | none => simp [parse_slice_tiles, hb, hs, hf, hpres, ha, harb, hn] at h
              | some np =>
                obtain ⟨nrem, q⟩ := np
                by_cases hbound : EVC_MAX_TILE_ROWS * EVC_MAX_TILE_COLUMNS < nrem + 1
                · simp [parse_slice_tiles, hb, hs, hf, hpres, ha, harb, hn, hbound] at h
                · cases hl : read_ue_list bits q (nrem + 1) with
                  | none =>
                    simp [parse_slice_tiles, hb, hs, hf, hpres, ha, harb, hn, hbound, hl] at h
                  | some dr =>
                    obtain ⟨ds, r⟩ := dr
                    simp [parse_slice_tiles, hb, hs, hf, hpres, ha, harb, hn, hbound, hl] at h
                    obtain ⟨ht, hp⟩ := h
                    subst ht
                    have hlen := read_ue_list_length bits (nrem + 1) q ds r hl
                    refine ⟨?_, fun _ => ?_⟩
                    · dsimp only
                      rw [hlen]
                      simp only [EVC_MAX_TILE_ROWS, EVC_MAX_TILE_COLUMNS] at hbound ⊢
                      omega
                    · dsimp only
                      rw [hlen]
            · cases hlt : read_bits bits (pos + 2 + (pps.tile_id_len_minus1 + 1))
                  (pps.tile_id_len_minus1 + 1) with
              | none => simp [parse_slice_tiles, hb, hs, hf, hpres, ha, harb, hlt] at h
              | some ltid =>
                simp [parse_slice_tiles, hb, hs, hf, hpres, ha, harb, hlt] at h
                obtain ⟨ht, hp⟩ := h
                subst ht
                exact ⟨Nat.zero_le _, fun ha2 => absurd ha2 (by simp)⟩
        · cases hlt : read_bits bits (pos + 1 + (pps.tile_id_len_minus1 + 1))
              (pps.tile_id_len_minus1 + 1) with
          | none => simp [parse_slice_tiles, hb, hs, hf, hpres, hlt] at h
          | some ltid =>
            simp [parse_slice_tiles, hb, hs, hf, hpres, hlt] at h
            obtain ⟨ht, hp⟩ := h
            subst ht
            exact ⟨Nat.zero_le _, fun ha2 => absurd ha2 (by simp)⟩

/-- C8: the per-tile delta-id sequence a successful slice-header parse
stores has length exactly `num_remaining_tiles_in_slice_minus1 + 1`
whenever the arbitrary-slice branch read it, and never exceeds
EVC_MAX_TILE_ROWS * EVC_MAX_TILE_COLUMNS (so the fixed-capacity array is
never written past its bound); and whenever the decoded
`num_remaining_tiles_in_slice_minus1` makes that length exceed the
maximum tile-grid size, the tiling parse is rejected with the fatal
decode error. -/
theorem slice_tile_count_checked :
    (∀ (ps : EVCParamSets) (bits : List Nat) (sh : EVCParserSliceHeader)
        (sps : EVCParserSPS),
        parse_slice_header ps bits = .ok (sh, sps) →
        sh.delta_tile_id_minus1.length ≤ EVC_MAX_TILE_ROWS * EVC_MAX_TILE_COLUMNS ∧
        (sh.arbitrary_slice_flag = 1 →
          sh.delta_tile_id_minus1.length = sh.num_remaining_tiles_in_slice_minus1 + 1)) ∧
    (∀ (pps : EVCParserPPS) (bits : List Nat) (pos f n q : Nat),
        read_bit bits pos = some 0 →
        read_bits bits (pos + 1) (pps.tile_id_len_minus1 + 1) = some f →
        pps.arbitrary_slice_present_flag = 1 →
        read_bit bits (pos + 1 + (pps.tile_id_len_minus1 + 1)) = some 1 →
        get_ue_golomb bits (pos + 2 + (pps.tile_id_len_minus1 + 1)) = some (n, q) →
        EVC_MAX_TILE_ROWS * EVC_MAX_TILE_COLUMNS < n + 1 →
        parse_slice_tiles pps bits pos
          = .error "num_tiles_in_slice exceeds the maximum tile grid size") := by
  constructor
  · intro ps bits sh sps h
    cases hdec : get_ue_golomb bits 0 with
    | none => simp [parse_slice_header, hdec] at h
    | some ip =>
      obtain ⟨ppsId, p1⟩ := ip
      cases hpps : ps.pps ppsId with
      | none => simp [parse_slice_header, hdec, hpps] at h
      | some pps =>
        cases hsps : ps.sps pps.pps_seq_parameter_set_id with
        | none => simp [parse_slice_header, hdec, hpps, hsps] at h
        | some sps2 =>
          cases hti : parse_slice_tiles pps bits p1 with
          | error e => simp [parse_slice_header, hdec, hpps, hsps, hti] at h
          | ok tp =>
            obtain ⟨t, p2⟩ := tp
            cases hst : get_ue_golomb bits p2 with
            | none => simp [parse_slice_header, hdec, hpps, hsps, hti, hst] at h
            | some sp =>
              obtain ⟨stype, p3⟩ := sp
              cases hlsb : read_bits bits p3 (sps2.log2_max_pic_order_cnt_lsb_minus4 + 4) with
              | none => simp [parse_slice_header, hdec, hpps, hsps, hti, hst, hlsb] at h
              | some lsb =>
                simp [parse_slice_header, hdec, hpps, hsps, hti, hst, hlsb] at h
                obtain ⟨hsh, hsps2⟩ := h
                subst hsh
                have ht := parse_slice_tiles_ok pps bits p1 t p2 hti
                exact ⟨ht.1, fun ha => ht.2 ha⟩
  · intro pps bits pos f n q h0 hf hp h1 hn hgt
    simp [parse_slice_tiles, h0, hf, hp, h1, hn, hgt]

/-- C8 witness: the first conjunct at the store `ps0` and the slice
buffer 0x9E 0x00 (a successful arbitrary-slice parse storing one delta
id); the second at `pps0` and the buffer 0x20 0x1B 0x90, whose
Exp-Golomb tile count 440 makes the sequence length 441 > 440. -/
theorem slice_tile_count_checked_witness :
    (sh0.delta_tile_id_minus1.length ≤ EVC_MAX_TILE_ROWS * EVC_MAX_TILE_COLUMNS ∧
     (sh0.arbitrary_slice_flag = 1 →
       sh0.delta_tile_id_minus1.length = sh0.num_remaining_tiles_in_slice_minus1 + 1)) ∧
    parse_slice_tiles pps0 [32, 27, 144] 0
      = .error "num_tiles_in_slice exceeds the maximum tile grid size" :=
  ⟨slice_tile_count_checked.1 ps0 [158, 0] sh0 spsA rfl,
   slice_tile_count_checked.2 pps0 [32, 27, 144] 0 0 440 20
     (by decide) (by decide) rfl (by decide) (by decide) (by decide)⟩

/-- C4 (amended): the forbidden-bit header error, the truncated length
prefix and every failure of the modelled slice path (missing parameter
set, truncated syntax, tile-count overflow) each log a descriptive
message and signal failure through the return value, and no embedded
operation raises an exception; the undersized-header-buffer case however
signals failure through the -1 return value alone, with no log message
(the code logs nothing on that path). -/
theorem error_reporting :
    (∀ bits : List Nat, EVC_NALU_HEADER_SIZE ≤ bits.length →
       byteAt bits 0 &&& 0x80 ≠ 0 →
       evc_get_nalu_type bits = (-1, ["Invalid NAL unit header\n"])) ∧
    (∀ bits : List Nat, bits.length < EVC_NALU_HEADER_SIZE →
       evc_get_nalu_type bits = (-1, [])) ∧
    (∀ bits : List Nat, bits.length < EVC_NALU_LENGTH_PREFIX_SIZE →
       evc_read_nal_unit_length bits = (0, ["Can't read NAL unit length\n"])) ∧
    (∀ (ctx : EVCParserContext) (temporal_id : Nat) (bits : List Nat),
       (parse_slice_nal ctx temporal_id bits).2.1 ≠ 0 →
       (parse_slice_nal ctx temporal_id bits).2.2 ≠ []) := by
  refine ⟨?_, ?_, ?_, ?_⟩
  · intro bits h1 h2
    unfold evc_get_nalu_type
    rw [if_pos h1, if_pos h2]
  · intro bits h1
    unfold evc_get_nalu_type
    rw [if_neg (by omega)]
    decide
  · intro bits h1
    unfold evc_read_nal_unit_length
    rw [if_pos h1]
  · intro ctx temporal_id bits hs
    unfold parse_slice_nal at hs ⊢
    cases h : parse_slice_header ctx.ps bits with
    | error e => simp
    | ok r =>
      rw [h] at hs
      exact absurd rfl hs

/-- C4 counterexample: the empty buffer is an undersized-header error,
yet the call returns the -1 sentinel with an empty log — an error kind
signalled only by return value, with no message. -/
theorem error_reporting_c4_cex :
    ([] : List Nat).length < EVC_NALU_HEADER_SIZE ∧
    (evc_get_nalu_type ([] : List Nat)).1 = -1 ∧
    (evc_get_nalu_type ([] : List Nat)).2 = [] := by decide

/-- C4 witness: each conjunct of the amended error-reporting theorem at a
concrete input (forbidden-bit buffer, empty buffer, 3-byte length buffer,
and a slice against the empty store). -/
theorem error_reporting_witness :
    evc_get_nalu_type [128, 0] = (-1, ["Invalid NAL unit header\n"]) ∧
    evc_get_nalu_type [] = (-1, []) ∧
    evc_read_nal_unit_length [1, 2, 3] = (0, ["Can't read NAL unit length\n"]) ∧
    (parse_slice_nal ctx0 1 [128]).2.2 ≠ [] :=
  ⟨error_reporting.1 [128, 0] (by decide) (by decide),
   error_reporting.2.1 [] (by decide),
   error_reporting.2.2.1 [1, 2, 3] (by decide),
   error_reporting.2.2.2 ctx0 1 [128] (by decide)⟩
